import Mathlib

/-!
Shallow embedding of the AI-media-detection pipeline:
  - src/src/c2pa_checker.py  (ProvenanceChecker, function check_c2pa)
  - src/combine_model.py     (AIEnsemblePredictor.predict; ScoreFusion)
  - src/app.py               (analyze_image orchestrator, post-upload portion)

Python dicts with optional keys are embedded as structures of Option fields
(none = key absent).  Python floats are embedded as rationals.  Exceptions
raised by external libraries (the c2pa reader, torch inference) are embedded
as explicit outcome values supplied by the request environment; the Python
try/except/finally control flow is embedded as explicit case analysis, so a
total Lean function models the fact that no exception escapes.
-/

namespace AIMedia

/-- Python value that can occupy the confidence slot: the code can place either
a float or (on the error path of predict) a string there. -/
inductive PyVal
  | num (q : ℚ)
  | str (s : String)
deriving DecidableEq

/-- Python string * int: repetition.  `confidence * 100` on a string value. -/
def pyStrMulNat (s : String) (n : Nat) : String :=
  String.join (List.replicate n s)

/-- The expression `confidence * 100` in app.py line 125: numeric
multiplication on a float, repetition on a string (Python semantics). -/
def pyMul100 : PyVal → PyVal
  | .num q => .num (q * 100)
  | .str s => .str (pyStrMulNat s 100)

/-! ## c2pa_checker.py -/

/-- One entry of assertion.data.actions; `digitalSourceType` key may be absent
(the code reads it with default ""). -/
structure ActionEntry where
  digitalSourceType : Option String
deriving DecidableEq

/-- One entry of the active manifest's assertions list. -/
structure C2paAssertion where
  label : Option String
  /-- assertion.get("data", {}).get("actions", []) collapsed to the list. -/
  actions : List ActionEntry
deriving DecidableEq

/-- signature_info object of a manifest. -/
structure SignatureInfo where
  issuer : Option String
deriving DecidableEq

/-- One manifest of the manifest store. -/
structure C2paManifest where
  signature_info : Option SignatureInfo
  assertions : List C2paAssertion
deriving DecidableEq

/-- The parsed manifest-store JSON document (fields check_c2pa reads). -/
structure ManifestData where
  active_manifest : Option String
  manifests : List (String × C2paManifest)
  validation_status : List String
deriving DecidableEq

/-- Python truthiness test `if not active_manifest_label` on an optional
string: falsy when the key is absent or the string is empty. -/
def strFalsy : Option String → Bool
  | none => true
  | some s => s == ""

/-- Decidable substring test on lists (needle occurs as a contiguous block). -/
def hasSubList (needle : List Char) : List Char → Bool
  | [] => needle.isEmpty
  | c :: cs => needle.isPrefixOf (c :: cs) || hasSubList needle cs

/-- Python `needle in haystack` on strings. -/
def strContains (haystack needle : String) : Bool :=
  hasSubList needle.toList haystack.toList

/-- The body of the for-loops of check_c2pa lines 49-54: an assertion
contributes is_ai when its label is "c2pa.actions" and some action's
digitalSourceType contains "trainedAlgorithmicMedia". -/
def assertionIsAI (a : C2paAssertion) : Bool :=
  a.label == some "c2pa.actions" &&
    a.actions.any (fun act =>
      strContains (act.digitalSourceType.getD "") "trainedAlgorithmicMedia")

/-- The dict returned by check_c2pa; Option fields model optional keys. -/
structure C2paRecord where
  c2pa_present : Bool
  available : Option Bool := none
  message : Option String := none
  error : Option String := none
  valid : Option Bool := none
  /-- key present with possibly-None value on the success path. -/
  issuer : Option (Option String) := none
  ai_generated : Option Bool := none
  raw_data : Option ManifestData := none
deriving DecidableEq

/-- Outcome of the external steps reader = c2pa.Reader(path); reader.json();
json.loads(...): some step raises with a message, the returned store string is
falsy (lines 23-24), or a document parses. -/
inductive ReadOutcome
  | raise (msg : String)
  | empty
  | parsed (md : ManifestData)
deriving DecidableEq

/-- check_c2pa of src/src/c2pa_checker.py, parameterized by the module-level
flag C2PA_AVAILABLE and by the outcome of the external read.  Totality of
this function embeds the fact that every exception is caught (lines 63-67). -/
def check_c2pa (c2paAvailable : Bool) (read : ReadOutcome) : C2paRecord :=
  if !c2paAvailable then
    { c2pa_present := false
      available := some false
      message := some "C2PA library not available on this platform" }
  else
    match read with
    | .raise msg => { c2pa_present := false, error := some msg }
    | .empty => { c2pa_present := false, message := some "No C2PA manifest found" }
    | .parsed md =>
      if strFalsy md.active_manifest then
        { c2pa_present := false
          message := some "Manifest store exists but no active manifest." }
      else
        let lbl := md.active_manifest.getD ""
        let active := (md.manifests.lookup lbl).getD ⟨none, []⟩
        let is_valid := md.validation_status.length == 0
        let sigInfo := active.signature_info.getD ⟨none⟩
        let is_ai := active.assertions.any assertionIsAI
        { c2pa_present := true
          valid := some is_valid
          issuer := some sigInfo.issuer
          ai_generated := some is_ai
          raw_data := some md }

/-! ## combine_model.py -/

/-- Outcome of staging and opening the image inside predict (lines 55-62),
together with the fused probability when inference proceeds: the two neural
nets and the meta-learner are opaque numeric computation, so the composite
final_ai_prob (line 86) is the parameter p. -/
inductive ImageOutcome
  | notFound (path : String)
  | openFails (emsg : String)
  | opened (p : ℚ)
deriving DecidableEq

/-- AIEnsemblePredictor.predict: returns (label, confidence); on the two error
paths the second component is an error STRING, not a probability. -/
def predict : ImageOutcome → String × PyVal
  | .notFound path => ("Error", .str ("Image not found at " ++ path))
  | .openFails e => ("Error", .str ("Invalid image file: " ++ e))
  | .opened p =>
    if p > 1 / 2 then ("AI Image", .num p)
    else ("Real Image", .num (1 - p))

/-! ## app.py -/

/-- The dict stored at result.layers.ai_model, with the literal status
strings used by app.py. -/
inductive AiLayer
  | complete (label : String) (confidence : PyVal)
  | error (emsg : String)
  | skipped (reason : String)
deriving DecidableEq

/-- The value of the status key of an ai_model layer dict. -/
def AiLayer.status : AiLayer → String
  | .complete _ _ => "complete"
  | .error _ => "error"
  | .skipped _ => "skipped"

/-- The dict stored at result.layers.synthid (always status skipped). -/
structure SkippedLayer where
  status : String
  reason : String
deriving DecidableEq

/-- result.layers.c2pa: the record returned by check_c2pa plus the status key
the orchestrator may add in place (lines 97-98, 105). -/
structure C2paLayer where
  record : C2paRecord
  status : Option String
deriving DecidableEq

/-- The top-level result dict of analyze_image (post-upload fields). -/
structure AnalyzeResult where
  success : Bool
  filename : String
  c2pa : Option C2paLayer
  synthid : Option SkippedLayer
  ai_model : Option AiLayer
  final_verdict : Option String
  confidence : PyVal
  is_ai_generated : Bool
  error : Option String := none
deriving DecidableEq

/-- Behavior of the call predictor.predict(filepath) if it is made: torch
inference may raise, or predict returns a (label, confidence) pair. -/
inductive InferOutcome
  | raises (msg : String)
  | returns (label : String) (conf : PyVal)
deriving DecidableEq

/-- The non-raising inference outcome determined by predict on a staged
image outcome (links the orchestrator to AIEnsemblePredictor.predict). -/
def inferOf (img : ImageOutcome) : InferOutcome :=
  .returns (predict img).1 (predict img).2

/-- Per-request environment of analyze_image after the upload is staged:
the C2PA module flag, the manifest-read outcome, whether the startup
predictor load succeeded (predictor is not None), and what the predict
call would do if invoked. -/
structure Request where
  filename : String
  c2paAvailable : Bool
  readOutcome : ReadOutcome
  predictorLoaded : Bool
  inference : InferOutcome
deriving DecidableEq

/-- Observable outcome of one analyze_image run: the returned result, the
number of os.remove calls performed by the finally block, and whether
predictor.predict was invoked. -/
structure RunOutcome where
  result : AnalyzeResult
  cleanupCalls : Nat
  classifierInvoked : Bool
deriving DecidableEq

/-- analyze_image of src/app.py, lines 77-152, starting after the file is
staged.  The staged file is saved before the try block and no statement of
the try block removes it, so os.path.exists holds at the finally block and
os.remove runs exactly once on every exit path, including the exceptional
one (modeled by the raises branch reaching the except clause).
predictor.predict is invoked exactly when the short-circuit did not fire
and predictor is not None, so classifierInvoked records that condition. -/
def analyze_image (req : Request) : RunOutcome :=
  let init : AnalyzeResult :=
    { success := true
      filename := req.filename
      c2pa := none
      synthid := none
      ai_model := none
      final_verdict := none
      confidence := .num 0
      is_ai_generated := false }
  let c2pa_result := check_c2pa req.c2paAvailable req.readOutcome
  -- line 97: if c2pa_result.get('available') == False: status := 'unavailable'
  let c2paStatus0 : Option String :=
    if c2pa_result.available == some false then some "unavailable" else none
  let afterC2pa := { init with c2pa := some ⟨c2pa_result, c2paStatus0⟩ }
  let result :=
    if c2pa_result.c2pa_present then
      { afterC2pa with
        confidence := .num 100
        is_ai_generated := true
        final_verdict := some "AI Generated (C2PA Verified)"
        c2pa := some ⟨c2pa_result, some "verified"⟩
        synthid := some ⟨"skipped", "C2PA verification successful"⟩
        ai_model := some (.skipped "C2PA verification successful") }
    else
      let withSynthid :=
        { afterC2pa with synthid := some ⟨"skipped", "Not implemented"⟩ }
      if req.predictorLoaded then
        match req.inference with
        | .raises m =>
          -- the exception reaches the except clause, lines 143-145
          { withSynthid with success := false, error := some m }
        | .returns label conf =>
          let confidence_percent := pyMul100 conf
          { withSynthid with
            ai_model := some (.complete label confidence_percent)
            confidence := confidence_percent
            is_ai_generated := label == "AI Image"
            final_verdict := some label }
      else
        { withSynthid with
          ai_model := some (.error "AI model not loaded")
          final_verdict := some "Unknown (Model unavailable)" }
  let invoked := !c2pa_result.c2pa_present && req.predictorLoaded
  { result := result, cleanupCalls := 1, classifierInvoked := invoked }

/-! ## Theorems -/

/-- predict on an opened image returns in its second slot the winning-class
probability: p when p exceeds 1/2, else 1-p. -/
theorem predict_snd (p : ℚ) :
    (predict (.opened p)).2 = .num (if p > 1 / 2 then p else 1 - p) := by
  simp only [predict]
  rcases lt_or_le (1 / 2 : ℚ) p with h | h
  · rw [if_pos h, if_pos h]
  · have hn : ¬ (1 / 2 : ℚ) < p := not_lt.mpr h
    rw [if_neg hn, if_neg hn]

/-- pyMul100 of predict's second slot is 100 times the certainty of the
winning class. -/
theorem predict_conf_percent (p : ℚ) :
    pyMul100 (predict (.opened p)).2 = .num (100 * max p (1 - p)) := by
  rw [predict_snd]
  show PyVal.num ((if p > 1 / 2 then p else 1 - p) * 100)
      = PyVal.num (100 * max p (1 - p))
  congr 1
  rcases lt_or_le (1 / 2 : ℚ) p with h | h
  · rw [if_pos h, max_eq_left (by linarith), mul_comm]
  · rw [if_neg (not_lt.mpr h), max_eq_right (by linarith), mul_comm]

/-- C4: for every Fusion Result, label = Synthetic ("AI Image") iff the fused
probability is strictly greater than 0.5, and at exactly 0.5 the label is
Authentic ("Real Image"). -/
theorem C4_label_threshold (p : ℚ) :
    ((predict (.opened p)).1 = "AI Image" ↔ p > 1 / 2) ∧
    (predict (.opened (1 / 2))).1 = "Real Image" := by
  constructor
  · simp only [predict]
    rcases lt_or_le (1 / 2 : ℚ) p with h | h
    · rw [if_pos h]
      exact ⟨fun _ => h, fun _ => rfl⟩
    · have hn : ¬ (1 / 2 : ℚ) < p := not_lt.mpr h
      rw [if_neg hn]
      exact ⟨fun hc => absurd hc (by simp), fun hlt => absurd hlt hn⟩
  · simp only [predict]
    rw [if_neg (lt_irrefl _)]

/-- C5: the confidence reported in the Analysis Result (and in the ensemble
layer) equals 100 * max(p, 1-p) for fused probability p: predict returns
p when p exceeds 1/2 and 1-p otherwise, and app.py multiplies it by 100.
Proved for every rational p, hence in particular for p in the unit interval. -/
theorem C5_confidence_certainty (p : ℚ) :
    (analyze_image ⟨"d.png", true, .empty, true, inferOf (.opened p)⟩).result.confidence
        = .num (100 * max p (1 - p)) ∧
    (analyze_image ⟨"d.png", true, .empty, true, inferOf (.opened p)⟩).result.ai_model
        = some (.complete (predict (.opened p)).1 (.num (100 * max p (1 - p)))) := by
  constructor
  · show pyMul100 (predict (.opened p)).2 = PyVal.num (100 * max p (1 - p))
    exact predict_conf_percent p
  · show some (AiLayer.complete (predict (.opened p)).1 (pyMul100 (predict (.opened p)).2))
        = some (AiLayer.complete (predict (.opened p)).1 (.num (100 * max p (1 - p))))
    rw [predict_conf_percent]

/-- C6: when reading or parsing the embedded manifest raises with message msg,
check_c2pa returns exactly the record with present=false and error=msg (all
other optional keys absent); check_c2pa is a total function, so no exception
propagates out of it. -/
theorem C6_parse_exception_caught (msg : String) :
    (check_c2pa true (.raise msg)).c2pa_present = false ∧
    (check_c2pa true (.raise msg)).error = some msg ∧
    check_c2pa true (.raise msg) = { c2pa_present := false, error := some msg } :=
  ⟨rfl, rfl, rfl⟩

/-- C7: every record returned by check_c2pa with c2pa_present=false has the
valid, issuer and ai_generated keys absent. -/
theorem C7_absent_fields (avail : Bool) (ro : ReadOutcome)
    (h : (check_c2pa avail ro).c2pa_present = false) :
    (check_c2pa avail ro).valid = none ∧
    (check_c2pa avail ro).issuer = none ∧
    (check_c2pa avail ro).ai_generated = none := by
  cases avail with
  | false => exact ⟨rfl, rfl, rfl⟩
  | true =>
    cases ro with
    | raise msg => exact ⟨rfl, rfl, rfl⟩
    | empty => exact ⟨rfl, rfl, rfl⟩
    | parsed md =>
      by_cases hf : strFalsy md.active_manifest
      · simp [check_c2pa, hf]
      · simp [check_c2pa, hf] at h

/-- C7 witness: the hypothesis of C7_absent_fields holds at a concrete input. -/
theorem C7_absent_fields_witness :
    (check_c2pa true .empty).c2pa_present = false ∧
    ((check_c2pa true .empty).valid = none ∧
     (check_c2pa true .empty).issuer = none ∧
     (check_c2pa true .empty).ai_generated = none) :=
  ⟨rfl, C7_absent_fields true .empty rfl⟩

/-- C8: for every request, whatever the environment (short-circuit, normal
inference, inference exception, unloaded model, unavailable provenance), the
finally block removes the staged file exactly once before the result is
returned. -/
theorem C8_cleanup_exactly_once (req : Request) :
    (analyze_image req).cleanupCalls = 1 := rfl

/-- Test fixture: a parsed manifest store whose active manifest is present and
validly signed but carries no AI action assertion, so check_c2pa reports
c2pa_present=true with ai_generated=false. -/
def mdNonAI : ManifestData :=
  ⟨some "m1", [("m1", ⟨some ⟨some "TestCA"⟩, []⟩)], []⟩

/-- C1 counterexample: on a manifest that is present but NOT AI-flagged
(ai_generated=false), the orchestrator still short-circuits: no classifier is
invoked, the watermark layer reason is "C2PA verification successful" rather
than "Not implemented", and the request is concluded is_ai_generated=true with
confidence 100 — contradicting the claim that this case runs the ensemble. -/
theorem C1_counterexample :
    (check_c2pa true (.parsed mdNonAI)).c2pa_present = true ∧
    (check_c2pa true (.parsed mdNonAI)).ai_generated = some false ∧
    (analyze_image ⟨"a.png", true, .parsed mdNonAI, true,
        inferOf (.opened (9 / 10))⟩).classifierInvoked = false ∧
    (analyze_image ⟨"a.png", true, .parsed mdNonAI, true,
        inferOf (.opened (9 / 10))⟩).result.synthid
        = some ⟨"skipped", "C2PA verification successful"⟩ ∧
    (analyze_image ⟨"a.png", true, .parsed mdNonAI, true,
        inferOf (.opened (9 / 10))⟩).result.is_ai_generated = true ∧
    (analyze_image ⟨"a.png", true, .parsed mdNonAI, true,
        inferOf (.opened (9 / 10))⟩).result.confidence = .num 100 :=
  ⟨rfl, rfl, rfl, rfl, rfl, rfl⟩

/-- C1 (amended): the orchestrator short-circuits exactly when the Manifest
Record has c2pa_present=true, regardless of the ai_generated signal: it then
sets confidence=100, is_ai_generated=true, a provenance-derived verdict, marks
the watermark and ensemble layers skipped with reason "C2PA verification
successful", and invokes no classifier; in every other case it marks the
watermark layer skipped with reason "Not implemented" and invokes the
classifier ensemble iff the predictor loaded at startup. -/
theorem C1_short_circuit_on_presence (req : Request) :
    if (check_c2pa req.c2paAvailable req.readOutcome).c2pa_present then
      (analyze_image req).result.confidence = .num 100 ∧
      (analyze_image req).result.is_ai_generated = true ∧
      (analyze_image req).result.final_verdict = some "AI Generated (C2PA Verified)" ∧
      (analyze_image req).result.synthid
          = some ⟨"skipped", "C2PA verification successful"⟩ ∧
      (analyze_image req).result.ai_model
          = some (.skipped "C2PA verification successful") ∧
      (analyze_image req).classifierInvoked = false
    else
      (analyze_image req).result.synthid = some ⟨"skipped", "Not implemented"⟩ ∧
      (analyze_image req).classifierInvoked = req.predictorLoaded := by
  rcases h : (check_c2pa req.c2paAvailable req.readOutcome).c2pa_present with _ | _
  · rw [if_neg (by simp [h])]
    cases hp : req.predictorLoaded <;> cases hi : req.inference <;>
      simp [analyze_image, h, hp, hi]
  · rw [if_pos (by simp [h])]
    simp [analyze_image, h]

/-- C2 counterexample: when classifier execution raises for a request,
success is set to false and the message recorded, but the ensemble layer is
NOT marked Error — it stays None (Pending), contradicting the claim. -/
theorem C2_counterexample :
    (check_c2pa true .empty).c2pa_present = false ∧
    (analyze_image ⟨"b.png", true, .empty, true,
        .raises "CUDA error: device-side assert triggered"⟩).result.success = false ∧
    (analyze_image ⟨"b.png", true, .empty, true,
        .raises "CUDA error: device-side assert triggered"⟩).result.error
        = some "CUDA error: device-side assert triggered" ∧
    (analyze_image ⟨"b.png", true, .empty, true,
        .raises "CUDA error: device-side assert triggered"⟩).result.ai_model = none :=
  ⟨rfl, rfl, rfl, rfl⟩

/-- C2 (amended): for every non-short-circuited request, when predict returns
the ensemble layer is Complete and success stays true; when the predictor is
unloaded the layer is Error("AI model not loaded"); but when classifier
execution raises, success=false and the error message are recorded while the
ensemble layer REMAINS Pending (the key stays None) — it is not marked Error. -/
theorem C2_ensemble_layer_states (req : Request) :
    if (check_c2pa req.c2paAvailable req.readOutcome).c2pa_present then True
    else if req.predictorLoaded then
      (match req.inference with
       | .raises m =>
           (analyze_image req).result.success = false ∧
           (analyze_image req).result.error = some m ∧
           (analyze_image req).result.ai_model = none
       | .returns lbl conf =>
           (analyze_image req).result.success = true ∧
           (analyze_image req).result.ai_model
               = some (.complete lbl (pyMul100 conf)))
    else
      (analyze_image req).result.success = true ∧
      (analyze_image req).result.ai_model
          = some (.error "AI model not loaded") := by
  rcases h : (check_c2pa req.c2paAvailable req.readOutcome).c2pa_present with _ | _
  · rw [if_neg (by simp [h])]
    cases hp : req.predictorLoaded
    · rw [if_neg (by simp [hp])]
      simp [analyze_image, h, hp]
    · rw [if_pos (by simp [hp])]
      cases hi : req.inference <;> simp [analyze_image, h, hp, hi]
  · rw [if_pos (by simp [h])]
    trivial

/-- C3 counterexample: with the predictor unloaded and no short-circuit, the
ensemble layer is marked with status "error" (message "AI model not loaded"),
not "unavailable", contradicting the claim that it is marked Unavailable; the
sentinel verdict and the success of the provenance-only request do hold. -/
theorem C3_counterexample :
    (analyze_image ⟨"c.png", true, .empty, false, .raises "unused"⟩).result.ai_model
        = some (.error "AI model not loaded") ∧
    Option.map AiLayer.status
        (analyze_image ⟨"c.png", true, .empty, false, .raises "unused"⟩).result.ai_model
        = some "error" ∧
    Option.map AiLayer.status
        (analyze_image ⟨"c.png", true, .empty, false, .raises "unused"⟩).result.ai_model
        ≠ some "unavailable" ∧
    (analyze_image ⟨"c.png", true, .empty, false, .raises "unused"⟩).result.final_verdict
        = some "Unknown (Model unavailable)" ∧
    (analyze_image ⟨"c.png", true, .empty, false, .raises "unused"⟩).result.success = true := by
  refine ⟨rfl, rfl, ?_, rfl, rfl⟩
  simp [analyze_image, check_c2pa, AiLayer.status]

/-- C3 (amended): if the ensemble capability failed to load at startup, every
non-short-circuited request gets its ensemble layer marked as an Error layer
with message "AI model not loaded" (status "error", not Unavailable),
final_verdict is the sentinel "Unknown (Model unavailable)", and the
provenance-only request still succeeds (success=true). -/
theorem C3_model_unavailable_sentinel (req : Request) :
    if (check_c2pa req.c2paAvailable req.readOutcome).c2pa_present then True
    else if req.predictorLoaded then True
    else
      (analyze_image req).result.ai_model = some (.error "AI model not loaded") ∧
      Option.map AiLayer.status (analyze_image req).result.ai_model = some "error" ∧
      (analyze_image req).result.final_verdict = some "Unknown (Model unavailable)" ∧
      (analyze_image req).result.success = true := by
  rcases h : (check_c2pa req.c2paAvailable req.readOutcome).c2pa_present with _ | _
  · rw [if_neg (by simp [h])]
    cases hp : req.predictorLoaded
    · rw [if_neg (by simp [hp])]
      simp [analyze_image, h, hp, AiLayer.status]
    · rw [if_pos (by simp [hp])]
      trivial
  · rw [if_pos (by simp [h])]
    trivial

/-- C9: for a staged file that cannot be decoded as an image, predict returns
the pair ("Error", message-string) with a string in the confidence position;
the orchestrator then multiplies that string by 100 (Python repetition),
returning success=true, final_verdict "Error", is_synthetic=false, and a
non-numeric confidence value — outside [0,100]. -/
theorem C9_error_string_confidence :
    predict (.openFails "cannot identify image file")
        = ("Error", .str "Invalid image file: cannot identify image file") ∧
    (analyze_image ⟨"e.png", true, .empty, true,
        inferOf (.openFails "cannot identify image file")⟩).result.success = true ∧
    (analyze_image ⟨"e.png", true, .empty, true,
        inferOf (.openFails "cannot identify image file")⟩).result.final_verdict
        = some "Error" ∧
    (analyze_image ⟨"e.png", true, .empty, true,
        inferOf (.openFails "cannot identify image file")⟩).result.is_ai_generated
        = false ∧
    (analyze_image ⟨"e.png", true, .empty, true,
        inferOf (.openFails "cannot identify image file")⟩).result.confidence
        = .str (pyStrMulNat "Invalid image file: cannot identify image file" 100) ∧
    (∀ q : ℚ, (analyze_image ⟨"e.png", true, .empty, true,
        inferOf (.openFails "cannot identify image file")⟩).result.confidence
        ≠ .num q) := by
  refine ⟨rfl, rfl, rfl, rfl, rfl, fun q hcontra => ?_⟩
  rw [show (analyze_image ⟨"e.png", true, .empty, true,
      inferOf (.openFails "cannot identify image file")⟩).result.confidence
      = .str (pyStrMulNat "Invalid image file: cannot identify image file" 100) from rfl]
      at hcontra
  exact PyVal.noConfusion hcontra

/-- C10: an available provenance subsystem that yields an empty manifest store,
or a store that parses while naming no active manifest, produces present=false
with an explanatory message and NO error key — a normal negative result — and
the pipeline then proceeds to invoke the classifier ensemble. -/
theorem C10_negative_without_error (md : ManifestData)
    (h : strFalsy md.active_manifest = true) :
    ((check_c2pa true .empty).c2pa_present = false ∧
     (check_c2pa true .empty).message = some "No C2PA manifest found" ∧
     (check_c2pa true .empty).error = none) ∧
    ((check_c2pa true (.parsed md)).c2pa_present = false ∧
     (check_c2pa true (.parsed md)).message
         = some "Manifest store exists but no active manifest." ∧
     (check_c2pa true (.parsed md)).error = none) ∧
    (analyze_image ⟨"f.png", true, .empty, true,
        inferOf (.opened (1 / 4))⟩).classifierInvoked = true ∧
    (analyze_image ⟨"g.png", true, .parsed md, true,
        inferOf (.opened (1 / 4))⟩).classifierInvoked = true := by
  refine ⟨⟨rfl, rfl, rfl⟩, ⟨?_, ?_, ?_⟩, rfl, ?_⟩
  · simp [check_c2pa, h]
  · simp [check_c2pa, h]
  · simp [check_c2pa, h]
  · simp [analyze_image, check_c2pa, h]

/-- C10 witness: the hypothesis holds at the concrete store with no active
manifest field. -/
theorem C10_negative_without_error_witness :
    strFalsy (ManifestData.mk none [] []).active_manifest = true ∧
    ((check_c2pa true (.parsed ⟨none, [], []⟩)).c2pa_present = false ∧
     (check_c2pa true (.parsed ⟨none, [], []⟩)).message
         = some "Manifest store exists but no active manifest." ∧
     (check_c2pa true (.parsed ⟨none, [], []⟩)).error = none) :=
  ⟨rfl, (C10_negative_without_error ⟨none, [], []⟩ rfl).2.1⟩

end AIMedia
